import Mathlib

/-!
Verification of the real-time event distribution layer of the dashboard
backend (file `backend/app/services/mqtt_api.py`, class `MQTTSSEPool`),
the SSE HTTP handler (`backend/app/routers/mqtt.py`, `stream_topics`),
and the bidirectional WebSocket proxy
(`backend/app/routers/frigate.py`, `proxy_go2rtc_websocket`).

Python strings are modelled as `List Char`; Python `None`-or-string
values as `Option (List Char)`.  Each definition is a direct shallow
embedding of the corresponding Python function; the doc comment on each
definition names its source.
-/

/-- Python truthiness of a `None`-or-string value: `None` and the empty
string are falsy, every non-empty string is truthy. -/
def pyTruthy : Option (List Char) → Bool
  | none => false
  | some s => !s.isEmpty

/-- The ASCII whitespace characters removed by Python `str.strip()`
(space, tab, newline, carriage return, vertical tab, form feed). -/
def pySpace (c : Char) : Bool :=
  c = ' ' || c = '\t' || c = '\n' || c = '\r' || c = '\u000B' || c = '\u000C'

/-- Embedding of Python `s.strip()`: drop leading and trailing
whitespace characters. -/
def pyStrip (s : List Char) : List Char :=
  ((s.dropWhile pySpace).reverse.dropWhile pySpace).reverse

/-- Embedding of Python `s.split(",")`: split on every comma; the empty
string splits to `[""]`, and adjacent commas produce empty parts. -/
def splitComma : List Char → List (List Char)
  | [] => [[]]
  | c :: rest =>
    if c = ',' then [] :: splitComma rest
    else
      match splitComma rest with
      | [] => [[c]]
      | h :: t => (c :: h) :: t

/-- Embedding of Python `p.endswith("*")`: true iff the last character
exists and is `*`. -/
def endsWithStar (p : List Char) : Bool :=
  match p.getLast? with
  | some c => c = '*'
  | none => false

/-- The loop body of `MQTTSSEPool._match_filter`
(`mqtt_api.py` lines 248-259): for each comma-separated part, strip it;
return true on `*`, on a trailing-star part whose stem prefixes the
topic, or on exact equality; note that a part ending in `*` whose stem
does not prefix the topic falls through to the next part without an
equality test (the Python `elif`). -/
def matchParts (topic : List Char) : List (List Char) → Bool
  | [] => false
  | p :: rest =>
    let q := pyStrip p
    if q = ['*'] then true
    else if endsWithStar q then
      if q.dropLast.isPrefixOf topic then true
      else matchParts topic rest
    else if topic = q then true
    else matchParts topic rest

/-- Embedding of `MQTTSSEPool._match_filter(topic, pattern)`
(`mqtt_api.py` lines 246-259). -/
def match_filter (topic pattern : List Char) : Bool :=
  matchParts topic (splitComma pattern)

/-- An event record decoded from one upstream `data:` frame.  The pool
and the handlers only ever inspect the `"topic"` and `"type"` keys of
the JSON object; `etype` models the value of the `"type"` key,
`payload` stands for the rest of the object, carried along opaquely. -/
structure Event where
  topic : Option (List Char)
  etype : Option (List Char)
  payload : Option (List Char)
deriving DecidableEq, Repr

/-- The string `"ping"`. -/
def pingStr : List Char := "ping".data

/-- The synthetic keepalive marker `{"type": "ping"}` yielded by
`MQTTSSEPool.subscribe` on an inbox timeout (`mqtt_api.py` line 237). -/
def pingEvent : Event := ⟨none, some pingStr, none⟩

/-- The filter decision of the `subscribe` loop body
(`mqtt_api.py` lines 229-231): the event is yielded unless both
`topics_filter` and `event.get("topic")` are truthy and
`_match_filter` rejects the topic. -/
def shouldDeliver (filt : Option (List Char)) (e : Event) : Bool :=
  if pyTruthy filt && pyTruthy e.topic then
    match_filter (e.topic.getD []) (filt.getD [])
  else true

/-- The keepalive timeout (seconds) passed to `asyncio.wait_for` in
`MQTTSSEPool.subscribe` (`mqtt_api.py` line 226). -/
def keepaliveTimeout : Nat := 30

/-- Outcome of one wait on the subscriber inbox: an event arrived
within the timeout, or `asyncio.wait_for` timed out. -/
inductive PollResult
  | item (e : Event)
  | timeout
deriving DecidableEq, Repr

/-- What one iteration of the `subscribe` loop does with a poll
result. -/
inductive SubAction
  | yielded (e : Event)
  | skipped
  | keepalive
deriving DecidableEq, Repr

/-- One iteration of the `while True` loop of `MQTTSSEPool.subscribe`
(`mqtt_api.py` lines 224-237): a timeout yields the keepalive marker;
an event is yielded or skipped according to the filter decision. -/
def subscribeStep (filt : Option (List Char)) : PollResult → SubAction
  | .timeout => .keepalive
  | .item e => if shouldDeliver filt e then .yielded e else .skipped

/-- The sequence of events `subscribe` yields for a given sequence of
inbox poll results. -/
def subscribeOutputs (filt : Option (List Char)) : List PollResult → List Event
  | [] => []
  | r :: rs =>
    match subscribeStep filt r with
    | .yielded e => e :: subscribeOutputs filt rs
    | .skipped => subscribeOutputs filt rs
    | .keepalive => pingEvent :: subscribeOutputs filt rs

/-- The specification of one pattern part (already stripped)
matching a topic, as the spec words it: the part is exactly `*`,
or ends in `*` and its stem prefixes the topic, or equals the topic. -/
def specPartMatch (topic q : List Char) : Prop :=
  q = ['*'] ∨ (endsWithStar q = true ∧ q.dropLast.isPrefixOf topic = true) ∨ q = topic

lemma dropLast_isPrefixOf_self (l : List Char) : l.dropLast.isPrefixOf l = true :=
  List.isPrefixOf_iff_prefix.mpr (List.dropLast_prefix l)

lemma matchParts_head (topic q : List Char) (rest : List (List Char))
    (hm : specPartMatch topic (pyStrip q)) : matchParts topic (q :: rest) = true := by
  rcases hm with hm | ⟨hm2, hm3⟩ | hm
  · simp [matchParts, hm]
  · by_cases h1 : pyStrip q = ['*']
    · simp [matchParts, h1]
    · simp [matchParts, h1, hm2, hm3]
  · by_cases h1 : pyStrip q = ['*']
    · simp [matchParts, h1]
    · by_cases h2 : endsWithStar (pyStrip q) = true
      · have h3 : (pyStrip q).dropLast.isPrefixOf topic = true := by
          rw [hm]
          exact dropLast_isPrefixOf_self topic
        simp [matchParts, h1, h2, h3]
      · simp [matchParts, h1, h2, hm.symm]

lemma matchParts_tail (topic q : List Char) (rest : List (List Char))
    (h : matchParts topic rest = true) : matchParts topic (q :: rest) = true := by
  by_cases h1 : pyStrip q = ['*']
  · simp [matchParts, h1]
  · by_cases h2 : endsWithStar (pyStrip q) = true
    · by_cases h3 : (pyStrip q).dropLast.isPrefixOf topic = true
      · simp [matchParts, h1, h2, h3]
      · simp [matchParts, h1, h2, h3, h]
    · by_cases h4 : topic = pyStrip q
      · simp [matchParts, h1, h2, h4]
      · simp [matchParts, h1, h2, h4, h]

lemma matchParts_cons_inv (topic q : List Char) (rest : List (List Char))
    (h : matchParts topic (q :: rest) = true) :
    specPartMatch topic (pyStrip q) ∨ matchParts topic rest = true := by
  by_cases h1 : pyStrip q = ['*']
  · exact Or.inl (Or.inl h1)
  · by_cases h2 : endsWithStar (pyStrip q) = true
    · by_cases h3 : (pyStrip q).dropLast.isPrefixOf topic = true
      · exact Or.inl (Or.inr (Or.inl ⟨h2, h3⟩))
      · right
        simpa [matchParts, h1, h2, h3] using h
    · by_cases h4 : topic = pyStrip q
      · exact Or.inl (Or.inr (Or.inr h4.symm))
      · right
        simpa [matchParts, h1, h2, h4] using h

lemma matchParts_iff (topic : List Char) (l : List (List Char)) :
    matchParts topic l = true ↔ ∃ p ∈ l, specPartMatch topic (pyStrip p) := by
  induction l with
  | nil => simp [matchParts]
  | cons p rest ih =>
    constructor
    · intro h
      rcases matchParts_cons_inv topic p rest h with hm | ht
      · exact ⟨p, List.mem_cons_self p rest, hm⟩
      · obtain ⟨q, hq, hmq⟩ := ih.mp ht
        exact ⟨q, List.mem_cons_of_mem p hq, hmq⟩
    · rintro ⟨q, hq, hmq⟩
      rcases List.mem_cons.mp hq with rfl | hq'
      · exact matchParts_head topic q rest hmq
      · exact matchParts_tail topic p rest (ih.mpr ⟨q, hq', hmq⟩)

/-! ## Pool lifecycle (`MQTTSSEPool.start` / `stop` / `subscribe`)

Every access to `_running`, `_sse_task` and `_subscribers` in `start`,
`stop` and the registration step of `subscribe` happens inside
`async with self._lock`, with no suspension point between the
`_running` check and the task spawn, so each critical section is atomic
and any concurrent execution is equivalent to some serial sequence of
the operations below.  `tasks` counts live reader tasks (the task
spawned at `mqtt_api.py` line 180 ends only when `stop` cancels it, as
its loop swallows every other exception); `spawned` counts every
reader task ever created, i.e. upstream connection attempts started by
`start`. -/

/-- Abstract pool state: the `_running` flag, the number of live
reader tasks, the total number of reader tasks ever spawned, and the
number of registered subscriber queues. -/
structure PoolState where
  running : Bool
  tasks : Nat
  spawned : Nat
  subsCount : Nat
deriving DecidableEq, Repr

/-- The freshly constructed pool (`MQTTSSEPool.__init__`): not
running, no reader task, no subscribers. -/
def initPool : PoolState := ⟨false, 0, 0, 0⟩

/-- Embedding of `MQTTSSEPool.start` (`mqtt_api.py` lines 173-181):
under the lock, return unchanged if already running, otherwise set
running and spawn one reader task. -/
def startOp (s : PoolState) : PoolState :=
  if s.running then s
  else { s with running := true, tasks := s.tasks + 1, spawned := s.spawned + 1 }

/-- Embedding of `MQTTSSEPool.stop` (`mqtt_api.py` lines 183-205):
clear the running flag, cancel and await the reader task, clear all
subscriber queues. -/
def stopOp (s : PoolState) : PoolState :=
  { running := false, tasks := 0, spawned := s.spawned, subsCount := 0 }

/-- The registration half of `MQTTSSEPool.subscribe`
(`mqtt_api.py` lines 215-221): append a fresh queue under the lock,
then call `start()`. -/
def subscribeOp (s : PoolState) : PoolState :=
  startOp { s with subsCount := s.subsCount + 1 }

/-- The serialized pool operations. -/
inductive PoolOp
  | start
  | stop
  | subscribe
deriving DecidableEq, Repr

/-- Apply one pool operation. -/
def applyOp (s : PoolState) : PoolOp → PoolState
  | .start => startOp s
  | .stop => stopOp s
  | .subscribe => subscribeOp s

/-- Run a sequence of pool operations from a state. -/
def runOps (ops : List PoolOp) (s : PoolState) : PoolState :=
  ops.foldl applyOp s

/-- The reachability invariant: at most one live reader task, and none
at all while the pool is not running. -/
def poolInv (s : PoolState) : Prop :=
  s.tasks ≤ 1 ∧ (s.running = false → s.tasks = 0)

lemma poolInv_apply (s : PoolState) (o : PoolOp) (h : poolInv s) :
    poolInv (applyOp s o) := by
  obtain ⟨h1, h2⟩ := h
  cases o with
  | start =>
    by_cases hr : s.running
    · simpa [applyOp, startOp, hr, poolInv] using h1
    · have ht : s.tasks = 0 := h2 (by simpa using hr)
      simp [applyOp, startOp, hr, poolInv, ht]
  | stop => simp [applyOp, stopOp, poolInv]
  | subscribe =>
    by_cases hr : s.running
    · simpa [applyOp, subscribeOp, startOp, hr, poolInv] using h1
    · have ht : s.tasks = 0 := h2 (by simpa using hr)
      simp [applyOp, subscribeOp, startOp, hr, poolInv, ht]

lemma poolInv_runOps (ops : List PoolOp) (s : PoolState) (h : poolInv s) :
    poolInv (runOps ops s) := by
  induction ops generalizing s with
  | nil => simpa [runOps] using h
  | cons o rest ih =>
    have := poolInv_apply s o h
    simpa [runOps, List.foldl_cons] using ih (applyOp s o) this

lemma runOps_subscribe_running (n : Nat) (s : PoolState) (hr : s.running = true) :
    runOps (List.replicate n PoolOp.subscribe) s =
      { s with subsCount := s.subsCount + n } := by
  induction n generalizing s with
  | zero => simp [runOps]
  | succ k ih =>
    have step : applyOp s PoolOp.subscribe = { s with subsCount := s.subsCount + 1 } := by
      simp [applyOp, subscribeOp, startOp, hr]
    calc runOps (List.replicate (k + 1) PoolOp.subscribe) s
        = runOps (List.replicate k PoolOp.subscribe) (applyOp s PoolOp.subscribe) := by
          simp [runOps, List.replicate_succ]
      _ = { s with subsCount := s.subsCount + 1 + k } := by
          rw [step, ih { s with subsCount := s.subsCount + 1 } hr]
      _ = { s with subsCount := s.subsCount + (k + 1) } := by
          simp [Nat.add_assoc, Nat.add_comm 1 k]

/-! ## Fan-out broadcast (`MQTTSSEPool._broadcast`)

A subscriber inbox is an `asyncio.Queue(maxsize=100)`
(`mqtt_api.py` line 215), modelled as the list of buffered events,
oldest first. -/

/-- The inbox capacity (`asyncio.Queue(maxsize=100)`,
`mqtt_api.py` line 215). -/
def QUEUE_MAXSIZE : Nat := 100

/-- Embedding of `queue.put_nowait(event)` as `_broadcast` uses it
(`mqtt_api.py` lines 301-306): enqueue at the tail when the queue
holds fewer than `maxsize` items; when it is full, `QueueFull` is
caught and the new event is dropped, leaving the buffer unchanged. -/
def put_nowait (q : List Event) (e : Event) : List Event :=
  if q.length < QUEUE_MAXSIZE then q ++ [e] else q

/-- Embedding of `MQTTSSEPool._broadcast(event)`
(`mqtt_api.py` lines 297-315): attempt a non-blocking enqueue into
every subscriber queue in order.  (`put_nowait` on an `asyncio.Queue`
raises only `QueueFull`, so the dead-queue branch never fires for
these queues and the subscriber list is unchanged.) -/
def broadcast (subs : List (List Event)) (e : Event) : List (List Event) :=
  subs.map (fun q => put_nowait q e)

/-! ## Upstream reader loop (`MQTTSSEPool._sse_loop`)

One iteration of the `while self._running` loop is one connection
attempt.  An attempt either ends with the upstream closing the stream
cleanly (the line iterator is exhausted, the `async with` blocks exit
normally, and the loop re-enters immediately) or with a raised
exception (caught at `mqtt_api.py` line 291, followed by
`asyncio.sleep(5)` while still running).  In both cases every `data:`
line decoded before the end was already broadcast. -/

/-- The reconnect backoff passed to `asyncio.sleep`
(`mqtt_api.py` line 295). -/
def backoffSeconds : Nat := 5

/-- Outcome of one connection attempt: the events decoded and
broadcast before the attempt ended, tagged by how it ended. -/
inductive ConnOutcome
  | cleanClose (events : List Event)
  | connError (events : List Event)
deriving DecidableEq, Repr

/-- The events a connection attempt broadcast before it ended. -/
def outcomeEvents : ConnOutcome → List Event
  | .cleanClose es => es
  | .connError es => es

/-- Whether a connection attempt ended in a raised exception. -/
def isConnError : ConnOutcome → Bool
  | .cleanClose _ => false
  | .connError _ => true

/-- The backoff sleep `_sse_loop` performs after one attempt while the
pool is still running: `backoffSeconds` after a raised exception
(`mqtt_api.py` lines 291-295), none after a clean close (control goes
straight back to `while self._running`). -/
def attemptSleep (o : ConnOutcome) (running : Bool) : Nat :=
  match o with
  | .cleanClose _ => 0
  | .connError _ => if running then backoffSeconds else 0

/-- Observable trace of a run of `_sse_loop`: the events broadcast, in
order, and the backoff sleeps performed, in order. -/
structure ReaderTrace where
  delivered : List Event
  sleeps : List Nat
deriving DecidableEq, Repr

/-- Run of `_sse_loop` over a sequence of connection attempts while
the pool stays running: the loop retries after every attempt. -/
def runReader : List ConnOutcome → ReaderTrace
  | [] => ⟨[], []⟩
  | o :: rest =>
    let t := runReader rest
    match o with
    | .cleanClose es => ⟨es ++ t.delivered, t.sleeps⟩
    | .connError es => ⟨es ++ t.delivered, backoffSeconds :: t.sleeps⟩

/-! ## Bidirectional WebSocket proxy (`proxy_go2rtc_websocket`)

The handler in `backend/app/routers/frigate.py` lines 276-360:
authenticate from the `token` query parameter, accept, connect to
go2rtc, then run two forwarding coroutines under
`asyncio.gather(..., return_exceptions=True)`. -/

/-- Close code 1008 (`status.WS_1008_POLICY_VIOLATION`). -/
def WS_1008_POLICY_VIOLATION : Nat := 1008

/-- Close code 1011 (`status.WS_1011_INTERNAL_ERROR`). -/
def WS_1011_INTERNAL_ERROR : Nat := 1011

/-- Observable outcome of the setup phase of one proxy connection. -/
structure ProxyOutcome where
  accepted : Bool
  upstreamAttempted : Bool
  closeCode : Option Nat
  closeReason : List Char
  forwarding : Bool
deriving DecidableEq, Repr

/-- Embedding of the setup phase of `proxy_go2rtc_websocket`
(`frigate.py` lines 294-321 and 355-360): `if not token` closes with
1008 and reason `Missing token` before any accept or upstream attempt;
a failed `verify_jwt` closes with 1008 and reason `Invalid token`;
after authentication the client is accepted and the upstream
connection attempted; if that attempt raises, the client is closed
with 1011 and the exception text.  `verify` is the black-box
`verify_jwt` collaborator reduced to its accept/reject decision,
`upstreamOk` whether `websockets.connect` succeeds, `upstreamErr` the
`str(e)` of its failure. -/
def proxyConnect (verify : List Char → Bool) (token : Option (List Char))
    (upstreamOk : Bool) (upstreamErr : List Char) : ProxyOutcome :=
  if !(pyTruthy token) then
    ⟨false, false, some WS_1008_POLICY_VIOLATION, "Missing token".data, false⟩
  else if !(verify (token.getD [])) then
    ⟨false, false, some WS_1008_POLICY_VIOLATION, "Invalid token".data, false⟩
  else if !upstreamOk then
    ⟨true, true, some WS_1011_INTERNAL_ERROR, upstreamErr, false⟩
  else
    ⟨true, true, none, [], true⟩

/-! ## Proxy forwarding phase

In the forwarding phase two coroutines run under
`asyncio.gather(forward_to_go2rtc(), forward_from_go2rtc(),
return_exceptions=True)` (`frigate.py` lines 349-353).  `gather` with
`return_exceptions=True` never cancels one task because the other
finished: task A (client to go2rtc) is unblocked only by client
activity or client disconnect, task B (go2rtc to client) only by an
upstream message or upstream close.  The step relation below records
exactly those wake-ups; `tick` is a scheduler step on which neither
socket produces anything. -/

/-- State of one forwarding session: whether each socket is still
open and whether each forwarding coroutine is still alive. -/
structure SessState where
  clientOpen : Bool
  upstreamOpen : Bool
  taskAAlive : Bool
  taskBAlive : Bool
deriving DecidableEq, Repr

/-- A session that has just entered the forwarding phase. -/
def sessInit : SessState := ⟨true, true, true, true⟩

/-- Events that can wake a forwarding coroutine. -/
inductive SessEvent
  | clientClose
  | upstreamClose
  | clientMsg
  | upstreamMsg
  | tick
deriving DecidableEq, Repr

/-- One step of the forwarding phase (`frigate.py` lines 322-353).
A client disconnect raises `WebSocketDisconnect` in task A's pending
`websocket.receive()`, ending task A; an upstream close exhausts task
B's `async for`, ending task B.  A message is forwarded unless the
peer socket is already closed, in which case the send raises and ends
the forwarding task.  Nothing else ends a task: in particular no step
ends task B because task A ended, or task A because task B ended. -/
def sessStep (s : SessState) : SessEvent → SessState
  | .clientClose => { s with clientOpen := false, taskAAlive := false }
  | .upstreamClose => { s with upstreamOpen := false, taskBAlive := false }
  | .clientMsg =>
    if s.clientOpen && s.taskAAlive && !s.upstreamOpen then
      { s with taskAAlive := false }
    else s
  | .upstreamMsg =>
    if s.upstreamOpen && s.taskBAlive && !s.clientOpen then
      { s with taskBAlive := false }
    else s
  | .tick => s

/-- Run a sequence of session events. -/
def runSess (evs : List SessEvent) : SessState :=
  evs.foldl sessStep sessInit

/-! ## SSE HTTP handler (`stream_topics.event_generator`)

The generator in `backend/app/routers/mqtt.py` lines 104-113 turns
each event pulled from the pool into one outbound SSE frame. -/

/-- Payload of an outbound SSE frame: the empty `data: ""` of a ping
frame, or the `json.dumps(event)` of a message frame (kept as the
event it serializes). -/
inductive FrameData
  | empty
  | jsonOf (e : Event)
deriving DecidableEq, Repr

/-- An outbound SSE frame: the `event` name and the `data` payload. -/
structure Frame where
  name : List Char
  data : FrameData
deriving DecidableEq, Repr

/-- Embedding of the per-event branch of `event_generator`
(`mqtt.py` lines 107-113): an event whose `"type"` is `"ping"` is
emitted as `event: ping` with empty data — its other keys are
discarded — and every other event as `event: message` carrying its
JSON serialization. -/
def frameOf (e : Event) : Frame :=
  if e.etype = some pingStr then ⟨"ping".data, FrameData.empty⟩
  else ⟨"message".data, FrameData.jsonOf e⟩

/-! ## Claim theorems -/

/-- Claim C1: in every state reachable by any serialized sequence of
`start()` / `stop()` / `subscribe()` operations, at most one reader
task is live; `start()` spawns only when the pool is not already
running; and N concurrent `subscribe()` calls (N ≥ 1) leave exactly
one live reader task and exactly one upstream connection attempt
(one task ever spawned). -/
theorem pool_single_reader :
    (∀ ops : List PoolOp, (runOps ops initPool).tasks ≤ 1) ∧
    (∀ s : PoolState, s.running = true → startOp s = s) ∧
    (∀ n : Nat, 0 < n →
      (runOps (List.replicate n PoolOp.subscribe) initPool).tasks = 1 ∧
      (runOps (List.replicate n PoolOp.subscribe) initPool).spawned = 1) := by
  refine ⟨fun ops => ?_, fun s hs => ?_, fun n hn => ?_⟩
  · exact (poolInv_runOps ops initPool ⟨by simp [initPool], fun _ => rfl⟩).1
  · simp [startOp, hs]
  · obtain ⟨k, rfl⟩ := Nat.exists_eq_succ_of_ne_zero (Nat.pos_iff_ne_zero.mp hn)
    have hstep : runOps (List.replicate (k + 1) PoolOp.subscribe) initPool =
        { running := true, tasks := 1, spawned := 1, subsCount := 1 + k } := by
      have h0 : runOps (List.replicate (k + 1) PoolOp.subscribe) initPool =
          runOps (List.replicate k PoolOp.subscribe) (applyOp initPool PoolOp.subscribe) := by
        rw [List.replicate_succ]
        rfl
      have h1 : applyOp initPool PoolOp.subscribe =
          ({ running := true, tasks := 1, spawned := 1, subsCount := 1 } : PoolState) := by
        decide
      rw [h0, h1, runOps_subscribe_running k _ rfl]
    rw [hstep]
    exact ⟨rfl, rfl⟩

/-- Witness for C1 at three concurrent subscriptions. -/
theorem pool_single_reader_witness :
    (runOps (List.replicate 3 PoolOp.subscribe) initPool).tasks = 1 ∧
    startOp { running := true, tasks := 1, spawned := 1, subsCount := 0 } =
      { running := true, tasks := 1, spawned := 1, subsCount := 0 } :=
  ⟨(pool_single_reader.2.2 3 (by decide)).1,
   pool_single_reader.2.1 { running := true, tasks := 1, spawned := 1, subsCount := 0 } rfl⟩

/-- Claim C2: `_broadcast` is a total function that attempts a
non-blocking enqueue into every inbox: the result has one inbox per
subscriber, inbox `i` of the result is exactly `put_nowait` applied to
inbox `i` of the input, a full inbox (at capacity 100) is left
completely unchanged — the new event is dropped, not an old one — and
every inbox with free space receives the event at its tail. -/
theorem broadcast_drop_newest :
    ∀ (subs : List (List Event)) (e : Event),
      (broadcast subs e).length = subs.length ∧
      (∀ i : Nat, (broadcast subs e)[i]? = (subs[i]?).map (fun q => put_nowait q e)) ∧
      (∀ q : List Event, QUEUE_MAXSIZE ≤ q.length → put_nowait q e = q) ∧
      (∀ q : List Event, q.length < QUEUE_MAXSIZE → put_nowait q e = q ++ [e]) := by
  intro subs e
  refine ⟨by simp [broadcast], fun i => ?_, fun q hq => ?_, fun q hq => ?_⟩
  · simp [broadcast, List.getElem?_map]
  · simp [put_nowait, Nat.not_lt.mpr hq]
  · simp [put_nowait, hq]

/-- Witness for C2: a full inbox is unchanged, an empty one receives
the event. -/
theorem broadcast_drop_newest_witness :
    put_nowait (List.replicate 100 pingEvent) pingEvent = List.replicate 100 pingEvent ∧
    put_nowait [] pingEvent = [pingEvent] :=
  ⟨(broadcast_drop_newest [] pingEvent).2.2.1 (List.replicate 100 pingEvent)
      (by simp [QUEUE_MAXSIZE]),
    (broadcast_drop_newest [] pingEvent).2.2.2 [] (by simp [QUEUE_MAXSIZE])⟩

/-- Claim C3: `_match_filter topic pattern` is true iff some
comma-separated, whitespace-trimmed part of `pattern` is exactly `*`,
or ends in `*` with its stem a prefix of `topic`, or equals `topic`
(so a comma-joined list matches iff at least one member does, and the
part `*` matches every topic); and at the `subscribe` layer an absent
or empty filter delivers every event. -/
theorem match_filter_spec :
    (∀ topic pattern : List Char,
      match_filter topic pattern = true ↔
        ∃ p ∈ splitComma pattern, specPartMatch topic (pyStrip p)) ∧
    (∀ e : Event, shouldDeliver none e = true ∧ shouldDeliver (some []) e = true) := by
  constructor
  · intro topic pattern
    exact matchParts_iff topic (splitComma pattern)
  · intro e
    constructor <;> simp [shouldDeliver, pyTruthy]

/-- Claim C4 counterexample: after an attempt that ends in a clean
upstream close, the reader sleeps 0 time-units, not the 5-unit
backoff the claim requires — it reconnects immediately. -/
theorem sse_clean_close_no_backoff :
    attemptSleep (ConnOutcome.cleanClose []) true = 0 ∧
    backoffSeconds = 5 ∧
    attemptSleep (ConnOutcome.cleanClose []) true ≠ backoffSeconds := by
  exact ⟨rfl, rfl, by decide⟩

/-- Claim C4 (amended): while the pool stays running the reader
retries after every connection attempt; it sleeps the fixed 5-unit
backoff exactly once per attempt that ended in a raised connection
error, and not at all after a clean upstream close; and the events
delivered across all attempts are exactly the upstream events in
order — no gap event is synthesized, so existing subscribers resume
receiving events after a reconnect without re-subscribing. -/
theorem sse_reconnect_amended :
    backoffSeconds = 5 ∧
    (∀ outs : List ConnOutcome,
      (runReader outs).delivered = (outs.map outcomeEvents).flatten ∧
      (runReader outs).sleeps =
        List.replicate (outs.countP isConnError) backoffSeconds) := by
  refine ⟨rfl, fun outs => ?_⟩
  induction outs with
  | nil => exact ⟨rfl, rfl⟩
  | cons o rest ih =>
    cases o with
    | cleanClose es =>
      refine ⟨?_, ?_⟩
      · simp [runReader, outcomeEvents, ih.1]
      · simp [runReader, isConnError, List.countP_cons, ih.2]
    | connError es =>
      refine ⟨?_, ?_⟩
      · simp [runReader, outcomeEvents, ih.1]
      · simp [runReader, isConnError, List.countP_cons, ih.2, List.replicate_succ]

/-- Claim C5: the `subscribe` loop waits on the inbox with a 30-unit
timeout; a timeout yields the synthetic keepalive marker (an event of
type `ping`), not an error, and the sequence then continues with the
remaining poll results. -/
theorem subscribe_keepalive_on_timeout :
    keepaliveTimeout = 30 ∧
    pingEvent.etype = some pingStr ∧
    (∀ filt : Option (List Char),
      subscribeStep filt PollResult.timeout = SubAction.keepalive) ∧
    (∀ (filt : Option (List Char)) (rs : List PollResult),
      subscribeOutputs filt (PollResult.timeout :: rs) =
        pingEvent :: subscribeOutputs filt rs) :=
  ⟨rfl, rfl, fun _ => rfl, fun _ _ => rfl⟩

/-- Claim C6: a missing credential closes the client with the
policy-violation code 1008 and reason `Missing token`, a failed
verification with 1008 and the distinct reason `Invalid token`, in
both cases without accepting, attempting the upstream connection, or
forwarding anything; a failed upstream attempt after successful
authentication closes the client with the distinct code 1011 carrying
the failure text.  The handler is a per-connection function of its
own arguments, so each outcome affects only that connection. -/
theorem proxy_auth_failure_paths :
    ∀ (verify : List Char → Bool) (tok : Option (List Char)) (ok : Bool) (err : List Char),
      (pyTruthy tok = false →
        proxyConnect verify tok ok err =
          ⟨false, false, some WS_1008_POLICY_VIOLATION, "Missing token".data, false⟩) ∧
      (pyTruthy tok = true → verify (tok.getD []) = false →
        proxyConnect verify tok ok err =
          ⟨false, false, some WS_1008_POLICY_VIOLATION, "Invalid token".data, false⟩) ∧
      (pyTruthy tok = true → verify (tok.getD []) = true → ok = false →
        proxyConnect verify tok ok err =
          ⟨true, true, some WS_1011_INTERNAL_ERROR, err, false⟩) ∧
      "Missing token".data ≠ "Invalid token".data ∧
      WS_1008_POLICY_VIOLATION ≠ WS_1011_INTERNAL_ERROR := by
  intro verify tok ok err
  refine ⟨fun h1 => ?_, fun h1 h2 => ?_, fun h1 h2 h3 => ?_, by decide, by decide⟩
  · simp [proxyConnect, h1]
  · simp [proxyConnect, h1, h2]
  · simp [proxyConnect, h1, h2, h3]

/-- Witness for C6 at each failure path. -/
theorem proxy_auth_failure_paths_witness :
    proxyConnect (fun _ => false) none true [] =
      ⟨false, false, some WS_1008_POLICY_VIOLATION, "Missing token".data, false⟩ ∧
    proxyConnect (fun _ => false) (some "t".data) true [] =
      ⟨false, false, some WS_1008_POLICY_VIOLATION, "Invalid token".data, false⟩ ∧
    proxyConnect (fun _ => true) (some "t".data) false "boom".data =
      ⟨true, true, some WS_1011_INTERNAL_ERROR, "boom".data, false⟩ :=
  ⟨(proxy_auth_failure_paths (fun _ => false) none true []).1 rfl,
    ((proxy_auth_failure_paths (fun _ => false) (some "t".data) true []).2.1 (by decide) rfl),
    ((proxy_auth_failure_paths (fun _ => true) (some "t".data) false "boom".data).2.2.1
      (by decide) rfl rfl)⟩

/-- Claim C7 evaluation at the failing input: after the client closes
(ending the client-to-upstream task) and three further scheduler
steps with a silent upstream, the upstream-to-client task is still
alive, blocked on its own source — `gather` never cancelled it; it
ends only on its own wake-up, here the next upstream message sent to
the closed client. -/
theorem proxy_survivor_not_terminated :
    (runSess [SessEvent.clientClose, SessEvent.tick, SessEvent.tick,
        SessEvent.tick]).taskAAlive = false ∧
    (runSess [SessEvent.clientClose, SessEvent.tick, SessEvent.tick,
        SessEvent.tick]).taskBAlive = true ∧
    (runSess [SessEvent.clientClose, SessEvent.upstreamMsg]).taskBAlive = false := by
  decide

/-- Claim C8: `_match_filter` is a total function into `Bool` — it is
defined (and yields one of the two booleans) for every pair of
strings, including empty strings and topics containing the `,`
delimiter literally, where the hard comma split makes an exactly
matching pattern fail. -/
theorem match_filter_total :
    (∀ topic pattern : List Char,
      match_filter topic pattern = true ∨ match_filter topic pattern = false) ∧
    match_filter [] [] = true ∧
    match_filter "a,b".data "a,b".data = false := by
  refine ⟨fun t p => ?_, by decide, by decide⟩
  cases h : match_filter t p
  · exact Or.inr rfl
  · exact Or.inl rfl

/-- Claim C9: an event in the inbox whose `topic` key is absent or
falsy (the empty string) is yielded to the subscriber even when a
filter is set — the filter check is skipped entirely for it. -/
theorem topicless_events_bypass_filter :
    ∀ (filt : Option (List Char)) (e : Event),
      e.topic = none ∨ e.topic = some [] →
      subscribeStep filt (PollResult.item e) = SubAction.yielded e := by
  intro filt e h
  have ht : pyTruthy e.topic = false := by
    rcases h with h | h <;> simp [h, pyTruthy]
  simp [subscribeStep, shouldDeliver, ht]

/-- Witness for C9: a topicless event passes a restrictive filter. -/
theorem topicless_events_bypass_filter_witness :
    subscribeStep (some "zigbee2mqtt/*".data)
        (PollResult.item ⟨none, none, some "x".data⟩) =
      SubAction.yielded ⟨none, none, some "x".data⟩ :=
  topicless_events_bypass_filter (some "zigbee2mqtt/*".data)
    ⟨none, none, some "x".data⟩ (Or.inl rfl)

/-- Claim C10: an upstream event whose `type` is `ping` is emitted by
the SSE handler as the payload-less keepalive frame — event name
`ping`, empty data, its other keys discarded — and that frame is
identical to the one produced for the synthetic keepalive marker. -/
theorem upstream_ping_indistinguishable :
    ∀ e : Event, e.etype = some pingStr →
      frameOf e = Frame.mk "ping".data FrameData.empty ∧
      frameOf e = frameOf pingEvent := by
  intro e h
  constructor
  · simp [frameOf, h]
  · simp [frameOf, h, pingEvent]

/-- Witness for C10: a real upstream ping event with a topic and a
payload produces the bare keepalive frame. -/
theorem upstream_ping_indistinguishable_witness :
    frameOf ⟨some "zigbee2mqtt/light_1".data, some pingStr, some "x".data⟩ =
      Frame.mk "ping".data FrameData.empty :=
  (upstream_ping_indistinguishable
    ⟨some "zigbee2mqtt/light_1".data, some pingStr, some "x".data⟩ rfl).1
